import Mathlib

/-!
Shallow embedding of the MAIA messaging core: the dispatcher pipeline
(`src/core/dispatcher.py`) and the RabbitMQ publisher/consumer pair
(`src/core/message_broker.py`).  External collaborators (the pika transport,
the json codec, the LLM classifier) are modelled as oracle parameters: each
broker primitive takes its outcome (`Except PyErr _`) as an argument, and the
control flow of the repository around those outcomes is translated from the
source.  Python dictionaries are association lists, Python exceptions are the
`PyErr` type, and raising is returning `Except.error`.

The broker is embedded at two levels.  The `...R` definitions embed
`message_broker.py` as it really executes: the module imports the
one-parameter `Logger` of `utils/logger.py` but passes a sender argument at
every logging call site, so each such call raises `TypeError`
(`loggerTwoArg`).  The logging-elided variants (`cConnect`, `cEnsureT`,
`declareQueue`, `subscribeC`) skip those raises and therefore reach a
superset of the real execution paths; the structural invariants proved over
every path of that over-approximation (registry atomicity, the consume-loop
spawn guard) hold of the real, shorter paths a fortiori.
-/

/-- Python exception values that appear in the embedded code paths. -/
inductive PyErr : Type where
  | amqpConnectionError : PyErr
  | amqpChannelError : PyErr
  | jsonDecodeError : PyErr
  | connectionError : String → PyErr
  | runtimeError : String → PyErr
  | attributeError : String → PyErr
  | typeError : PyErr
  | otherError : PyErr
deriving Repr, DecidableEq

/-- Python values as they occur in the dispatcher payloads (JSON-decoded). -/
inductive PyVal : Type where
  | none : PyVal
  | str : String → PyVal
  | int : Int → PyVal
  | bool : Bool → PyVal
  | list : List PyVal → PyVal
  | dict : List (String × PyVal) → PyVal

/-- Python truthiness for the embedded values (`if not selected_agents`). -/
def truthy : PyVal → Bool
  | PyVal.none => false
  | PyVal.str s => s ≠ ""
  | PyVal.int n => n ≠ 0
  | PyVal.bool b => b
  | PyVal.list xs => !xs.isEmpty
  | PyVal.dict kvs => !kvs.isEmpty

/-- First binding of a key in a Python dict (insertion-ordered association list). -/
def lookupKV : List (String × PyVal) → String → Option PyVal
  | [], _ => Option.none
  | (k, v) :: rest, key => if k = key then Option.some v else lookupKV rest key

/-- Python `d.get(key, default)`: attribute error when the receiver is not a dict. -/
def pyDictGet (v : PyVal) (key : String) (dflt : PyVal) : Except PyErr PyVal :=
  match v with
  | PyVal.dict kvs => Except.ok ((lookupKV kvs key).getD dflt)
  | _ => Except.error (PyErr.attributeError "get")

mutual
/-- Python `str()` of a value, as used by f-string interpolation in the
dispatcher (`f"agent.{selected_agents}.request"`). -/
def pyStr : PyVal → String
  | PyVal.none => "None"
  | PyVal.str s => s
  | PyVal.int n => toString n
  | PyVal.bool b => if b then "True" else "False"
  | PyVal.list xs => "[" ++ String.intercalate ", " (pyReprList xs) ++ "]"
  | PyVal.dict kvs => "\x7b" ++ String.intercalate ", " (pyReprKVList kvs) ++ "\x7d"

/-- Python `repr()` of a value (used for elements inside a list/dict display). -/
def pyRepr : PyVal → String
  | PyVal.none => "None"
  | PyVal.str s => "\x27" ++ s ++ "\x27"
  | PyVal.int n => toString n
  | PyVal.bool b => if b then "True" else "False"
  | PyVal.list xs => "[" ++ String.intercalate ", " (pyReprList xs) ++ "]"
  | PyVal.dict kvs => "\x7b" ++ String.intercalate ", " (pyReprKVList kvs) ++ "\x7d"

def pyReprList : List PyVal → List String
  | [] => []
  | x :: xs => pyRepr x :: pyReprList xs

def pyReprKVList : List (String × PyVal) → List String
  | [] => []
  | (k, v) :: kvs => (pyRepr (PyVal.str k) ++ ": " ++ pyRepr v) :: pyReprKVList kvs
end

/-! ## Dispatcher (`src/core/dispatcher.py`) -/

/-- Embeds `Dispatcher.detect_intent`: the source body is `pass`, so it returns `None`. -/
def detect_intent (_message : PyVal) : PyVal := PyVal.none

/-- Embeds `Dispatcher.fallback_strategy`: the source body is `pass`, so it returns `None`. -/
def fallback_strategy (_message : PyVal) : PyVal := PyVal.none

/-- Embeds `Dispatcher.route_request`: reads `message.get("selected_agent", [])`;
if the value is falsy, appends `fallback_strategy(message)` to it (an
`AttributeError` when the falsy value is not a list, e.g. `None`) and returns
it; otherwise returns the value unchanged. -/
def route_request (message : PyVal) : Except PyErr PyVal :=
  let _primary_intent := detect_intent message
  match pyDictGet message "selected_agent" (PyVal.list []) with
  | Except.error e => Except.error e
  | Except.ok selected_agents =>
    if truthy selected_agents then
      Except.ok selected_agents
    else
      match selected_agents with
      | PyVal.list xs => Except.ok (PyVal.list (xs ++ [fallback_strategy message]))
      | _ => Except.error (PyErr.attributeError "append")

/-- Observable outcome of one run of the dispatcher per-message callback:
the publish calls it issued (topic, payload) in order, and whether it
returned normally or raised into the broker callback wrapper. -/
structure HandlerOut : Type where
  publishes : List (String × PyVal)
  outcome : Except PyErr Unit

/-- Embeds `Dispatcher._listen_to_user_messages.user_message_callback` together with
the inlined `analyze_request`.  `classify` is the external collaborator
composed of the LLM call and `json.loads` of its raw text; its failure is the
propagated classification error.  `stopSet` is `self._stop_event.is_set()`. -/
def userMessageCallback (classify : PyVal → Except PyErr PyVal)
    (stopSet : Bool) (body : PyVal) : HandlerOut :=
  if stopSet then
    { publishes := [], outcome := Except.ok () }
  else
    match pyDictGet body "chat_id" PyVal.none with
    | Except.error e => { publishes := [], outcome := Except.error e }
    | Except.ok _chat_id =>
      match pyDictGet body "text" (PyVal.str "no message found") with
      | Except.error e => { publishes := [], outcome := Except.error e }
      | Except.ok response_text =>
        match classify response_text with
        | Except.error e => { publishes := [], outcome := Except.error e }
        | Except.ok response =>
          let analyzePubs := [("dispatcher.log.info", response)]
          match route_request response with
          | Except.error e => { publishes := analyzePubs, outcome := Except.error e }
          | Except.ok selected_agents =>
            { publishes := analyzePubs ++
                [("dispatcher.log.info",
                    PyVal.str ("Selected agents: " ++ pyStr selected_agents)),
                 ("agent." ++ pyStr selected_agents ++ ".request", response)],
              outcome := Except.ok () }

/-! ## Message broker (`src/core/message_broker.py`) -/

/-- Broker-side actions issued by the embedded operations, in call order. -/
inductive Act : Type where
  | disconnect : Act
  | connect : Act
  | basicPublish : String → Act
  | queueDeclare : String → Act
  | queueBind : String → String → Act
  | basicConsume : String → Act
  | basicCancel : String → Act
  | queueDelete : String → Act
deriving Repr, DecidableEq

/-- A pika connection or channel slot: `Option.none` is Python `None`,
`Option.some b` is an object whose `is_open` is `b`. -/
def isOpen : Option Bool → Bool
  | Option.none => false
  | Option.some b => b

/-- Connection state of `MessagePublisher`. -/
structure PubState : Type where
  connection : Option Bool
  channel : Option Bool
  stopping : Bool
deriving Repr, DecidableEq

/-- State of `MessageConsumer`: connection slots, lifecycle flags, the
subscription registry `_subscribers` (id, topic, queue name), the registered
queue consumers with their `auto_ack` flag, `_declared_queues`, and a ghost
counter of consume-loop spawns for the idempotency claim. -/
structure CState : Type where
  connection : Option Bool
  channel : Option Bool
  stopping : Bool
  consuming : Bool
  threadAlive : Bool
  spawns : Nat
  subscribers : List (String × String × String)
  consumers : List (String × Bool)
  declaredQueues : List String
deriving Repr, DecidableEq

/-- Embeds `MessageConsumer.connect` with the logging statements elided
(each would raise `TypeError`; `cConnectR` embeds them faithfully): on
success both slots become open and the call returns `True`, and both
`except` arms return `False`. -/
def cConnect (res : Except PyErr Unit) (s : CState) : Except PyErr (Bool × CState) :=
  match res with
  | Except.ok _ =>
      Except.ok (true, { s with connection := Option.some true, channel := Option.some true })
  | Except.error PyErr.amqpConnectionError => Except.ok (false, s)
  | Except.error _ => Except.ok (false, s)

/-- Embeds `MessageConsumer._ensure_connection` with the logging elided
(faithful variant: `cEnsureR`): unlike the publisher side, the teardown call
is commented out in the source, so a half-open state goes straight to
`connect()`. -/
def cEnsureT (res : Except PyErr Unit) (s : CState) : Bool × CState × List Act :=
  if s.stopping then (false, s, [])
  else if isOpen s.connection && isOpen s.channel then (true, s, [])
  else
    match cConnect res s with
    | Except.ok (b, s2) => (b, s2, [Act.connect])
    | Except.error _ => (false, s, [Act.connect])

/-- Python `str.replace` for a single-character pattern, used by the queue
name derivation in `MessageConsumer.subscribe`. -/
def replaceChar (c : Char) (r : String) (s : String) : String :=
  String.mk (s.data.foldr (fun a acc => if a = c then r.data ++ acc else a :: acc) [])

/-- Maps `.` to `_`, `*` to `star`, `#` to `hash`, applied in source order. -/
def escapeTopic (t : String) : String :=
  replaceChar '#' "hash" (replaceChar '*' "star" (replaceChar '.' "_" t))

/-- Python `s[:8]`. -/
def take8 (s : String) : String := String.mk (s.data.take 8)

/-- The derived queue name for a `(pattern, id)` pair. -/
def mkQueueName (topic subscription_id : String) : String :=
  "maia." ++ escapeTopic topic ++ "." ++ take8 subscription_id

/-- Embeds `MessageConsumer._declare_queue` with the logging elided
(faithful variant: `declareQueueR`): ensure connection, declare the durable
queue (the oracle returns the broker-assigned queue name), bind it to the
exchange; any exception is caught and turned into `False`.  On success the
actual queue name is recorded in `_declared_queues`. -/
def declareQueue (res : Except PyErr Unit) (declareRes : Except PyErr String)
    (bindRes : Except PyErr Unit) (s : CState) (queue_name topic : String) :
    Bool × CState × List Act :=
  match cEnsureT res s with
  | (false, s1, tr) => (false, s1, tr)
  | (true, s1, tr) =>
    match declareRes with
    | Except.error _ => (false, s1, tr ++ [Act.queueDeclare queue_name])
    | Except.ok actual_queue_name =>
      match bindRes with
      | Except.error _ =>
          (false, s1, tr ++ [Act.queueDeclare queue_name,
                             Act.queueBind actual_queue_name topic])
      | Except.ok _ =>
          (true,
           { s1 with declaredQueues :=
               if actual_queue_name ∈ s1.declaredQueues then s1.declaredQueues
               else s1.declaredQueues ++ [actual_queue_name] },
           tr ++ [Act.queueDeclare queue_name, Act.queueBind actual_queue_name topic])

/-- Embeds `MessageConsumer._start_consuming`: returns immediately when the consumer
thread is alive, otherwise spawns the background consume loop (the ghost
counter `spawns` records each spawn). -/
def startConsuming (s : CState) : CState :=
  if s.threadAlive then s
  else { s with threadAlive := true, spawns := s.spawns + 1 }

/-- Per-call oracle for `subscribe`: the outcomes of the pika primitives the
call may reach (two `_ensure_connection` calls, `queue_declare`, `queue_bind`,
`basic_consume`). -/
structure SubOracle : Type where
  ensure1 : Except PyErr Unit
  ensure2 : Except PyErr Unit
  declareRes : Except PyErr String
  bindRes : Except PyErr Unit
  consumeRes : Except PyErr Unit
deriving Repr

/-- Embeds `MessageConsumer.subscribe` with the logging elided (faithful
variant: `subscribeR`): raises `ConnectionError` when the connection
cannot be ensured, derives the queue name from the fresh `subscription_id`,
raises `RuntimeError` when `_declare_queue` fails, registers the queue
consumer with `auto_ack=True`, starts the consume loop when none is running,
and only then stores the subscription in the registry.  The returned value is
the raised exception or the subscription id, next to the post-state and the
broker actions issued. -/
def subscribeC (o : SubOracle) (s : CState) (topic subscription_id : String) :
    Except PyErr String × CState × List Act :=
  match cEnsureT o.ensure1 s with
  | (false, s1, tr) =>
      (Except.error (PyErr.connectionError "Consumer not connected to RabbitMQ"), s1, tr)
  | (true, s1, tr) =>
    let queue_name := mkQueueName topic subscription_id
    match declareQueue o.ensure2 o.declareRes o.bindRes s1 queue_name topic with
    | (false, s2, tr2) =>
        (Except.error (PyErr.runtimeError ("Failed to declare queue for topic " ++ topic)),
         s2, tr ++ tr2)
    | (true, s2, tr2) =>
      match o.consumeRes with
      | Except.error _ =>
          (Except.error (PyErr.runtimeError ("Failed to set up consumer for topic " ++ topic)),
           s2, tr ++ tr2 ++ [Act.basicConsume queue_name])
      | Except.ok _ =>
        let s3 : CState := { s2 with consumers := s2.consumers ++ [(queue_name, true)] }
        let s4 := if !s3.consuming then startConsuming s3 else s3
        (Except.ok subscription_id,
         { s4 with subscribers := s4.subscribers ++ [(subscription_id, topic, queue_name)] },
         tr ++ tr2 ++ [Act.basicConsume queue_name])

/-- First registry entry with the given subscription id. -/
def findSub : List (String × String × String) → String → Option (String × String)
  | [], _ => Option.none
  | (i, t, q) :: rest, sid => if i = sid then Option.some (t, q) else findSub rest sid

/-- Registry with every entry for the given id removed (`del`). -/
def removeSub (subs : List (String × String × String)) (sid : String) :
    List (String × String × String) :=
  subs.filter (fun e => e.1 ≠ sid)

/-- Observable record of one delivery through the consume callback wrapper
`MessageConsumer.subscribe.message_callback`.  The wrapper runs after the
broker has already acknowledged the delivery when the consumer was registered
with `auto_ack`. -/
structure DeliveryRecord : Type where
  ackedBeforeCallback : Bool
  callbackInvoked : Bool
  decodeErrorLogged : Bool
  callbackErrorLogged : Bool
  raised : Option PyErr

/-! ### The broker as it really executes (`...R` definitions)

`message_broker.py` imports the `Logger` of `utils/logger.py`, whose methods
`debug`/`info`/`warning`/`error`/`critical` take a single `message`
parameter, yet every logging call in the module passes a second positional
`sender` argument (lines 81-489).  Each such call therefore raises
`TypeError` before any log record is written.  The definitions below embed
the same control flow as their elided counterparts but thread every logging
call through `loggerTwoArg`. -/

/-- Outcome of a `logger.X(message, sender)` call in `message_broker.py`:
the one-parameter `Logger` methods reject the extra positional argument, so
the call raises `TypeError` and writes nothing. -/
def loggerTwoArg : Except PyErr Unit := Except.error PyErr.typeError

/-- Embeds `MessagePublisher.connect` faithfully: on a successful broker
connection both slots become open, then the success-path `logger.info`
(line 81) raises, the `except Exception` arm catches it, and that arm's own
`logger.error` (line 91) raises out; both failure arms (lines 86/91) raise
from their logging call as well, so `connect` never returns a boolean. -/
def pConnectR (res : Except PyErr Unit) (s : PubState) : Except PyErr Bool × PubState :=
  match res with
  | Except.ok _ =>
    let s1 : PubState := { s with connection := Option.some true, channel := Option.some true }
    ((match loggerTwoArg with
      | Except.ok _ => Except.ok true
      | Except.error _ =>
        match loggerTwoArg with
        | Except.ok _ => Except.ok false
        | Except.error e2 => Except.error e2), s1)
  | Except.error PyErr.amqpConnectionError =>
    ((match loggerTwoArg with
      | Except.ok _ => Except.ok false
      | Except.error e2 => Except.error e2), s)
  | Except.error _ =>
    ((match loggerTwoArg with
      | Except.ok _ => Except.ok false
      | Except.error e2 => Except.error e2), s)

/-- Embeds `MessagePublisher.disconnect` faithfully: sets `_stopping`
(line 98), then the `logger.info` at line 100 raises `TypeError`, so the
channel/connection close blocks are dead code. -/
def pDisconnectR (s : PubState) : Except PyErr Unit × PubState :=
  let s1 : PubState := { s with stopping := true }
  match loggerTwoArg with
  | Except.error e => (Except.error e, s1)
  | Except.ok _ =>
    let s2 : PubState :=
      if isOpen s1.channel then { s1 with channel := Option.none } else s1
    let s3 : PubState :=
      if isOpen s2.connection then { s2 with connection := Option.none } else s2
    (Except.ok (), s3)

/-- Embeds `MessagePublisher._ensure_connection` faithfully: the inner
`try/except pass` swallows the teardown raise (which still set `_stopping`),
`connect()` always raises, the outer `except` catches it, and its
`logger.error` (line 144) raises `TypeError` out instead of returning
`False`. -/
def pEnsureR (res : Except PyErr Unit) (s : PubState) :
    Except PyErr Bool × PubState × List Act :=
  if s.stopping then (Except.ok false, s, [])
  else if isOpen s.connection && isOpen s.channel then (Except.ok true, s, [])
  else
    let ds := (pDisconnectR s).2
    match pConnectR res ds with
    | (Except.ok b, s2) => (Except.ok b, s2, [Act.disconnect, Act.connect])
    | (Except.error _, s2) =>
      ((match loggerTwoArg with
        | Except.ok _ => Except.ok false
        | Except.error e2 => Except.error e2), s2, [Act.disconnect, Act.connect])

/-- Embeds `MessagePublisher.publish` faithfully: only the fully successful
path returns (`True`); every failure path reaches a two-argument logging
call (lines 159/181/186) and raises `TypeError`. -/
def publishR (res pubRes : Except PyErr Unit) (s : PubState) (topic : String) :
    Except PyErr Bool × PubState × List Act :=
  match pEnsureR res s with
  | (Except.error e, s1, tr) => (Except.error e, s1, tr)
  | (Except.ok false, s1, tr) =>
    ((match loggerTwoArg with
      | Except.ok _ => Except.ok false
      | Except.error e2 => Except.error e2), s1, tr)
  | (Except.ok true, s1, tr) =>
    match pubRes with
    | Except.ok _ => (Except.ok true, s1, tr ++ [Act.basicPublish topic])
    | Except.error _ =>
      ((match loggerTwoArg with
        | Except.ok _ => Except.ok false
        | Except.error e2 => Except.error e2), s1, tr)

/-- Embeds `MessageConsumer.connect` faithfully (lines 246/250/255): like
the publisher side, every arm dies on its logging call. -/
def cConnectR (res : Except PyErr Unit) (s : CState) : Except PyErr Bool × CState :=
  match res with
  | Except.ok _ =>
    let s1 : CState := { s with connection := Option.some true, channel := Option.some true }
    ((match loggerTwoArg with
      | Except.ok _ => Except.ok true
      | Except.error _ =>
        match loggerTwoArg with
        | Except.ok _ => Except.ok false
        | Except.error e2 => Except.error e2), s1)
  | Except.error PyErr.amqpConnectionError =>
    ((match loggerTwoArg with
      | Except.ok _ => Except.ok false
      | Except.error e2 => Except.error e2), s)
  | Except.error _ =>
    ((match loggerTwoArg with
      | Except.ok _ => Except.ok false
      | Except.error e2 => Except.error e2), s)

/-- Embeds `MessageConsumer._ensure_connection` faithfully: no teardown
(commented out), `connect()` always raises, and the `except` arm raises
`TypeError` from its own `logger.error` (line 319) instead of returning
`False`. -/
def cEnsureR (res : Except PyErr Unit) (s : CState) :
    Except PyErr Bool × CState × List Act :=
  if s.stopping then (Except.ok false, s, [])
  else if isOpen s.connection && isOpen s.channel then (Except.ok true, s, [])
  else
    match cConnectR res s with
    | (Except.ok b, s2) => (Except.ok b, s2, [Act.connect])
    | (Except.error _, s2) =>
      ((match loggerTwoArg with
        | Except.ok _ => Except.ok false
        | Except.error e2 => Except.error e2), s2, [Act.connect])

/-- Embeds `MessageConsumer._declare_queue` faithfully: the ensure-failure
arm dies at line 334; after a successful `queue_declare` the `logger.info`
at line 347 raises *before* `queue_bind`, is caught by the `except`, whose
`logger.error` (line 361) raises out — so the bind and the `True` return are
dead code and the function always raises `TypeError`. -/
def declareQueueR (res : Except PyErr Unit) (declareRes : Except PyErr String)
    (bindRes : Except PyErr Unit) (s : CState) (queue_name topic : String) :
    Except PyErr Bool × CState × List Act :=
  match cEnsureR res s with
  | (Except.error e, s1, tr) => (Except.error e, s1, tr)
  | (Except.ok false, s1, tr) =>
    ((match loggerTwoArg with
      | Except.ok _ => Except.ok false
      | Except.error e2 => Except.error e2), s1, tr)
  | (Except.ok true, s1, tr) =>
    match declareRes with
    | Except.error _ =>
      ((match loggerTwoArg with
        | Except.ok _ => Except.ok false
        | Except.error e2 => Except.error e2), s1, tr ++ [Act.queueDeclare queue_name])
    | Except.ok actual_queue_name =>
      match loggerTwoArg with
      | Except.error _ =>
        ((match loggerTwoArg with
          | Except.ok _ => Except.ok false
          | Except.error e2 => Except.error e2), s1, tr ++ [Act.queueDeclare queue_name])
      | Except.ok _ =>
        match bindRes with
        | Except.error _ =>
          ((match loggerTwoArg with
            | Except.ok _ => Except.ok false
            | Except.error e2 => Except.error e2),
           s1, tr ++ [Act.queueDeclare queue_name, Act.queueBind actual_queue_name topic])
        | Except.ok _ =>
          (Except.ok true,
           { s1 with declaredQueues :=
               if actual_queue_name ∈ s1.declaredQueues then s1.declaredQueues
               else s1.declaredQueues ++ [actual_queue_name] },
           tr ++ [Act.queueDeclare queue_name, Act.queueBind actual_queue_name topic])

/-- Embeds `MessageConsumer.subscribe` faithfully: the one surviving
deliberate raise is `ConnectionError` when `_ensure_connection` returns
`False` (stopping flag); on every other path the `TypeError` from a logging
call propagates (via `_ensure_connection`, `_declare_queue`, or the
`logger.info` at line 390), and the `basic_consume`/loop-start/registry
insert code is unreachable. -/
def subscribeR (o : SubOracle) (s : CState) (topic subscription_id : String) :
    Except PyErr String × CState × List Act :=
  match cEnsureR o.ensure1 s with
  | (Except.error e, s1, tr) => (Except.error e, s1, tr)
  | (Except.ok false, s1, tr) =>
    (Except.error (PyErr.connectionError "Consumer not connected to RabbitMQ"), s1, tr)
  | (Except.ok true, s1, tr) =>
    let queue_name := mkQueueName topic subscription_id
    match declareQueueR o.ensure2 o.declareRes o.bindRes s1 queue_name topic with
    | (Except.error e, s2, tr2) => (Except.error e, s2, tr ++ tr2)
    | (Except.ok false, s2, tr2) =>
      ((match loggerTwoArg with
        | Except.ok _ =>
          Except.error (PyErr.runtimeError ("Failed to declare queue for topic " ++ topic))
        | Except.error e2 => Except.error e2), s2, tr ++ tr2)
    | (Except.ok true, s2, tr2) =>
      match loggerTwoArg with
      | Except.error e2 => (Except.error e2, s2, tr ++ tr2)
      | Except.ok _ =>
        match o.consumeRes with
        | Except.error _ =>
          ((match loggerTwoArg with
            | Except.ok _ =>
              Except.error (PyErr.runtimeError ("Failed to set up consumer for topic " ++ topic))
            | Except.error e2 => Except.error e2),
           s2, tr ++ tr2 ++ [Act.basicConsume queue_name])
        | Except.ok _ =>
          let s3 : CState := { s2 with consumers := s2.consumers ++ [(queue_name, true)] }
          let s4 := if !s3.consuming then startConsuming s3 else s3
          (Except.ok subscription_id,
           { s4 with subscribers := s4.subscribers ++ [(subscription_id, topic, queue_name)] },
           tr ++ tr2 ++ [Act.basicConsume queue_name])

/-- Embeds `MessageConsumer.unsubscribe` faithfully: the unknown-id arm dies
at line 437, the ensure-failure arm at line 442, broker errors at line 464 —
and on the fully successful path the registry entry is removed and then the
`logger.info` at line 459 raises, caught by the `except` whose `logger.error`
(line 464) raises out; the function never returns a boolean. -/
def unsubscribeR (res cancelRes delRes : Except PyErr Unit) (s : CState)
    (subscription_id : String) : Except PyErr Bool × CState × List Act :=
  match findSub s.subscribers subscription_id with
  | Option.none =>
    ((match loggerTwoArg with
      | Except.ok _ => Except.ok false
      | Except.error e2 => Except.error e2), s, [])
  | Option.some (_, queue_name) =>
    match cEnsureR res s with
    | (Except.error e, s1, tr) => (Except.error e, s1, tr)
    | (Except.ok false, s1, tr) =>
      ((match loggerTwoArg with
        | Except.ok _ => Except.ok false
        | Except.error e2 => Except.error e2), s1, tr)
    | (Except.ok true, s1, tr) =>
      match cancelRes with
      | Except.error _ =>
        ((match loggerTwoArg with
          | Except.ok _ => Except.ok false
          | Except.error e2 => Except.error e2), s1, tr ++ [Act.basicCancel queue_name])
      | Except.ok _ =>
        match delRes with
        | Except.error _ =>
          ((match loggerTwoArg with
            | Except.ok _ => Except.ok false
            | Except.error e2 => Except.error e2),
           s1, tr ++ [Act.basicCancel queue_name, Act.queueDelete queue_name])
        | Except.ok _ =>
          let s2 : CState := { s1 with subscribers := removeSub s1.subscribers subscription_id }
          match loggerTwoArg with
          | Except.ok _ =>
            (Except.ok true, s2, tr ++ [Act.basicCancel queue_name, Act.queueDelete queue_name])
          | Except.error _ =>
            ((match loggerTwoArg with
              | Except.ok _ => Except.ok false
              | Except.error e2 => Except.error e2),
             s2, tr ++ [Act.basicCancel queue_name, Act.queueDelete queue_name])

/-- Embeds one delivery through `subscribe.message_callback` faithfully.
The broker acknowledged on receipt when the consumer uses auto-ack (the
source passes `auto_ack=True`).  A decode failure is caught, but the except
arm dies on its own `logger.error` (line 400), so nothing actually gets
logged (`decodeErrorLogged`/`callbackErrorLogged` record whether a log
record was written) and the `TypeError` is what reaches pika; likewise for a
callback exception (line 403). -/
def processDeliveryR (autoAck : Bool) (decode : String → Option PyVal)
    (cb : PyVal → Except PyErr Unit) (rawBody : String) : DeliveryRecord :=
  let acked := autoAck
  match decode rawBody with
  | Option.none =>
    match loggerTwoArg with
    | Except.ok _ =>
      { ackedBeforeCallback := acked, callbackInvoked := false,
        decodeErrorLogged := true, callbackErrorLogged := false, raised := Option.none }
    | Except.error e2 =>
      { ackedBeforeCallback := acked, callbackInvoked := false,
        decodeErrorLogged := false, callbackErrorLogged := false, raised := Option.some e2 }
  | Option.some message =>
    match cb message with
    | Except.ok _ =>
      { ackedBeforeCallback := acked, callbackInvoked := true,
        decodeErrorLogged := false, callbackErrorLogged := false, raised := Option.none }
    | Except.error _ =>
      match loggerTwoArg with
      | Except.ok _ =>
        { ackedBeforeCallback := acked, callbackInvoked := true,
          decodeErrorLogged := false, callbackErrorLogged := true, raised := Option.none }
      | Except.error e2 =>
        { ackedBeforeCallback := acked, callbackInvoked := true,
          decodeErrorLogged := false, callbackErrorLogged := false, raised := Option.some e2 }

/-- The dispatcher callback delivered through the faithful broker wrapper:
the publish calls made for this delivery, and the wrapper record. -/
def dispatcherDeliveryR (decode : String → Option PyVal)
    (classify : PyVal → Except PyErr PyVal) (rawBody : String) :
    List (String × PyVal) × DeliveryRecord :=
  ((match decode rawBody with
    | Option.none => []
    | Option.some payload => (userMessageCallback classify false payload).publishes),
   processDeliveryR true decode
     (fun payload => (userMessageCallback classify false payload).outcome) rawBody)

/-- Embeds one iteration of `_start_consuming.consumer_thread` faithfully:
the `while not stopping` guard, `_ensure_connection` (whose raise kills the
thread), and the handling of `start_consuming` (`runRes`): when it raises —
e.g. the `TypeError` a delivery raised out of the callback wrapper — the
except arm's own two-argument `logger.error` (lines 481/484, and 489 on the
ensure-false branch) raises through the `finally`, and the thread dies. -/
def consumerThreadStep (res runRes : Except PyErr Unit) (s : CState) :
    CState × Option PyErr :=
  if s.stopping then ({ s with threadAlive := false }, Option.none)
  else
    match cEnsureR res s with
    | (Except.error e, s1, _) => ({ s1 with threadAlive := false }, Option.some e)
    | (Except.ok false, s1, _) =>
      match loggerTwoArg with
      | Except.ok _ => (s1, Option.none)
      | Except.error e2 => ({ s1 with threadAlive := false }, Option.some e2)
    | (Except.ok true, s1, _) =>
      let s2 : CState := { s1 with consuming := true }
      match runRes with
      | Except.ok _ => ({ s2 with consuming := false }, Option.none)
      | Except.error _ =>
        match loggerTwoArg with
        | Except.ok _ => ({ s2 with consuming := false }, Option.none)
        | Except.error e2 =>
          ({ s2 with consuming := false, threadAlive := false }, Option.some e2)

/-! Concrete states and oracles used to instantiate the claims. -/

/-- A publisher whose connection and channel are both open. -/
def pubStateOpen : PubState :=
  { connection := Option.some true, channel := Option.some true, stopping := false }

/-- A publisher after `disconnect` has run once: both slots open again after a
reconnect would still be refused because `_stopping` is set. -/
def pubStateStopped : PubState :=
  { connection := Option.some true, channel := Option.some true, stopping := true }

/-- A freshly constructed consumer: no connection, nothing registered. -/
def cDisconnected : CState :=
  { connection := Option.none, channel := Option.none, stopping := false,
    consuming := false, threadAlive := false, spawns := 0,
    subscribers := [], consumers := [], declaredQueues := [] }

/-- A consumer whose connection object is open but whose channel is closed. -/
def cHalfOpen : CState :=
  { connection := Option.some true, channel := Option.some false, stopping := false,
    consuming := false, threadAlive := false, spawns := 0,
    subscribers := [], consumers := [], declaredQueues := [] }

/-- An oracle on which the very first connection attempt fails. -/
def oracleDown : SubOracle :=
  { ensure1 := Except.error PyErr.amqpConnectionError, ensure2 := Except.ok (),
    declareRes := Except.ok "q", bindRes := Except.ok (), consumeRes := Except.ok () }

/-- An oracle on which every broker primitive succeeds (the broker assigns the
requested queue name). -/
def oracleUp : SubOracle :=
  { ensure1 := Except.ok (), ensure2 := Except.ok (),
    declareRes := Except.ok "maia.t.12345678", bindRes := Except.ok (),
    consumeRes := Except.ok () }

/-- A connected consumer whose background consume thread is alive. -/
def cOpenAlive : CState :=
  { cDisconnected with
      connection := Option.some true,
      channel := Option.some true,
      threadAlive := true }

/-- A connected consumer holding exactly one registered subscription. -/
def cOneSub : CState :=
  { cDisconnected with
      connection := Option.some true,
      channel := Option.some true,
      subscribers := [("abc123", "user.message.new", "maia.user_message_new.abc123")] }

/-- A json codec that decodes every wire body to the spec scenario payload. -/
def decodeUserMsg : String → Option PyVal := fun _ =>
  Option.some (PyVal.dict [("chat_id", PyVal.int 441992716),
                           ("text", PyVal.str "Schedule a meeting tomorrow")])

/-- A classifier whose raw response fails to decode as structured data. -/
def classifyGarbage : PyVal → Except PyErr PyVal := fun _ =>
  Except.error PyErr.jsonDecodeError

/-! ## Claims -/

/-- Claim C1: for every message received on `user.message.new` whose
classification yields a decision with a (non-empty) `selected_agent`, the
per-message handler publishes the decision payload to
`agent.<selected_agent>.request` and a routing log entry to
`dispatcher.log.info` (the decision itself is also logged there by
`analyze_request`). -/
theorem c1_selected_agent_routing
    (classify : PyVal → Except PyErr PyVal)
    (bkvs dkvs : List (String × PyVal)) (s : String)
    (hc : classify ((lookupKV bkvs "text").getD (PyVal.str "no message found"))
            = Except.ok (PyVal.dict dkvs))
    (hsel : lookupKV dkvs "selected_agent" = Option.some (PyVal.str s))
    (hs : s ≠ "") :
    (userMessageCallback classify false (PyVal.dict bkvs)).publishes
      = [("dispatcher.log.info", PyVal.dict dkvs),
         ("dispatcher.log.info", PyVal.str ("Selected agents: " ++ s)),
         ("agent." ++ s ++ ".request", PyVal.dict dkvs)]
    ∧ (userMessageCallback classify false (PyVal.dict bkvs)).outcome = Except.ok () := by
  have htr : truthy (PyVal.str s) = true := by simp [truthy, hs]
  have hroute : route_request (PyVal.dict dkvs) = Except.ok (PyVal.str s) := by
    simp [route_request, pyDictGet, hsel, htr]
  have hps : pyStr (PyVal.str s) = s := by simp [pyStr]
  simp [userMessageCallback, pyDictGet, hc, hroute, hps]

/-- Witness for C1 at the spec scenario: a decision selecting `CalendarAgent`
for the message `Schedule a meeting tomorrow`. -/
theorem c1_selected_agent_routing_witness :
    (userMessageCallback
        (fun _ => Except.ok (PyVal.dict [("selected_agent", PyVal.str "CalendarAgent"),
                                         ("confidence", PyVal.int 1)]))
        false
        (PyVal.dict [("chat_id", PyVal.int 441992716),
                     ("text", PyVal.str "Schedule a meeting tomorrow")])).publishes
      = [("dispatcher.log.info", PyVal.dict [("selected_agent", PyVal.str "CalendarAgent"),
                                             ("confidence", PyVal.int 1)]),
         ("dispatcher.log.info", PyVal.str "Selected agents: CalendarAgent"),
         ("agent.CalendarAgent.request",
          PyVal.dict [("selected_agent", PyVal.str "CalendarAgent"),
                      ("confidence", PyVal.int 1)])] :=
  (c1_selected_agent_routing
      (fun _ => Except.ok (PyVal.dict [("selected_agent", PyVal.str "CalendarAgent"),
                                       ("confidence", PyVal.int 1)]))
      [("chat_id", PyVal.int 441992716), ("text", PyVal.str "Schedule a meeting tomorrow")]
      [("selected_agent", PyVal.str "CalendarAgent"), ("confidence", PyVal.int 1)]
      "CalendarAgent" rfl rfl (by decide)).1

/-- Claim C2 (code bug): for a RoutingDecision carrying `selected_agent:
null`, `route_request` raises `AttributeError` (Python `None` has no
`append`) instead of returning the fallback agent; and when the key is
absent, the fallback list is interpolated into the topic so the dispatcher
publishes to the literal topic `agent.[None].request` rather than to any
agent request topic. -/
theorem c2_fallback_crash :
    route_request (PyVal.dict [("selected_agent", PyVal.none)])
      = Except.error (PyErr.attributeError "append")
    ∧ (userMessageCallback (fun _ => Except.ok (PyVal.dict [("selected_agent", PyVal.none)]))
        false (PyVal.dict [("text", PyVal.str "hi")])).outcome
      = Except.error (PyErr.attributeError "append")
    ∧ (userMessageCallback (fun _ => Except.ok (PyVal.dict [("confidence", PyVal.int 1)]))
        false (PyVal.dict [("text", PyVal.str "hi")])).publishes.map Prod.fst
      = ["dispatcher.log.info", "dispatcher.log.info", "agent.[None].request"] := by
  refine ⟨rfl, rfl, ?_⟩
  have h1 : route_request (PyVal.dict [("confidence", PyVal.int 1)])
      = Except.ok (PyVal.list [PyVal.none]) := rfl
  have h2 : pyStr (PyVal.list [PyVal.none]) = "[None]" := by
    simp only [pyStr, pyRepr, pyReprList]; rfl
  simp [userMessageCallback, pyDictGet, h1, h2]

/-- The call `_ensure_connection` never touches the consumer lifecycle flags, the
registry, the consumer list or the queue bookkeeping. -/
theorem cEnsureT_fields (res : Except PyErr Unit) (s : CState) :
    (cEnsureT res s).2.1.stopping = s.stopping
    ∧ (cEnsureT res s).2.1.consuming = s.consuming
    ∧ (cEnsureT res s).2.1.threadAlive = s.threadAlive
    ∧ (cEnsureT res s).2.1.spawns = s.spawns
    ∧ (cEnsureT res s).2.1.subscribers = s.subscribers
    ∧ (cEnsureT res s).2.1.consumers = s.consumers
    ∧ (cEnsureT res s).2.1.declaredQueues = s.declaredQueues := by
  unfold cEnsureT
  split
  · exact ⟨rfl, rfl, rfl, rfl, rfl, rfl, rfl⟩
  · split
    · exact ⟨rfl, rfl, rfl, rfl, rfl, rfl, rfl⟩
    · unfold cConnect
      cases res with
      | ok _ => exact ⟨rfl, rfl, rfl, rfl, rfl, rfl, rfl⟩
      | error e => cases e <;> exact ⟨rfl, rfl, rfl, rfl, rfl, rfl, rfl⟩

/-- The call `_declare_queue` never touches the consumer lifecycle flags, the registry
or the consumer list. -/
theorem declareQueue_fields (res : Except PyErr Unit) (declareRes : Except PyErr String)
    (bindRes : Except PyErr Unit) (s : CState) (q t : String) :
    (declareQueue res declareRes bindRes s q t).2.1.consuming = s.consuming
    ∧ (declareQueue res declareRes bindRes s q t).2.1.threadAlive = s.threadAlive
    ∧ (declareQueue res declareRes bindRes s q t).2.1.spawns = s.spawns
    ∧ (declareQueue res declareRes bindRes s q t).2.1.subscribers = s.subscribers
    ∧ (declareQueue res declareRes bindRes s q t).2.1.consumers = s.consumers := by
  have hf := cEnsureT_fields res s
  unfold declareQueue
  rcases he : cEnsureT res s with ⟨b1, s1, tr⟩
  rw [he] at hf
  simp only at hf
  cases b1 with
  | false => exact ⟨hf.2.1, hf.2.2.1, hf.2.2.2.1, hf.2.2.2.2.1, hf.2.2.2.2.2.1⟩
  | true =>
    cases declareRes with
    | error _ => exact ⟨hf.2.1, hf.2.2.1, hf.2.2.2.1, hf.2.2.2.2.1, hf.2.2.2.2.2.1⟩
    | ok actual =>
      cases bindRes with
      | error _ => exact ⟨hf.2.1, hf.2.2.1, hf.2.2.2.1, hf.2.2.2.2.1, hf.2.2.2.2.2.1⟩
      | ok _ => exact ⟨hf.2.1, hf.2.2.1, hf.2.2.2.1, hf.2.2.2.2.1, hf.2.2.2.2.2.1⟩

/-- Exhaustive case analysis of `subscribe`: connection failure, queue
declaration failure, consumer-setup failure, or success, with the exact
result, post-state and registry update of each branch. -/
theorem subscribeC_cases (o : SubOracle) (s : CState) (t i : String) :
    (∃ s1 tr, cEnsureT o.ensure1 s = (false, s1, tr) ∧
      subscribeC o s t i
        = (Except.error (PyErr.connectionError "Consumer not connected to RabbitMQ"), s1, tr))
    ∨ (∃ s1 tr s2 tr2, cEnsureT o.ensure1 s = (true, s1, tr) ∧
        declareQueue o.ensure2 o.declareRes o.bindRes s1 (mkQueueName t i) t = (false, s2, tr2) ∧
        subscribeC o s t i
          = (Except.error (PyErr.runtimeError ("Failed to declare queue for topic " ++ t)),
             s2, tr ++ tr2))
    ∨ (∃ s1 tr s2 tr2 e2, cEnsureT o.ensure1 s = (true, s1, tr) ∧
        declareQueue o.ensure2 o.declareRes o.bindRes s1 (mkQueueName t i) t = (true, s2, tr2) ∧
        o.consumeRes = Except.error e2 ∧
        subscribeC o s t i
          = (Except.error (PyErr.runtimeError ("Failed to set up consumer for topic " ++ t)),
             s2, tr ++ tr2 ++ [Act.basicConsume (mkQueueName t i)]))
    ∨ (∃ s1 tr s2 tr2 u, cEnsureT o.ensure1 s = (true, s1, tr) ∧
        declareQueue o.ensure2 o.declareRes o.bindRes s1 (mkQueueName t i) t = (true, s2, tr2) ∧
        o.consumeRes = Except.ok u ∧
        subscribeC o s t i
          = (Except.ok i,
             (let s3 : CState :=
                { s2 with consumers := s2.consumers ++ [(mkQueueName t i, true)] }
              let s4 := if !s3.consuming then startConsuming s3 else s3
              { s4 with subscribers := s4.subscribers ++ [(i, t, mkQueueName t i)] }),
             tr ++ tr2 ++ [Act.basicConsume (mkQueueName t i)])) := by
  rcases he : cEnsureT o.ensure1 s with ⟨b1, s1, tr⟩
  cases b1 with
  | false =>
    refine Or.inl ⟨s1, tr, rfl, ?_⟩
    unfold subscribeC
    rw [he]
  | true =>
    rcases hd : declareQueue o.ensure2 o.declareRes o.bindRes s1 (mkQueueName t i) t
      with ⟨b2, s2, tr2⟩
    cases b2 with
    | false =>
      refine Or.inr (Or.inl ⟨s1, tr, s2, tr2, rfl, hd, ?_⟩)
      unfold subscribeC
      rw [he]
      simp only
      rw [hd]
    | true =>
      cases hc : o.consumeRes with
      | error e2 =>
        refine Or.inr (Or.inr (Or.inl ⟨s1, tr, s2, tr2, e2, rfl, hd, rfl, ?_⟩))
        unfold subscribeC
        rw [he]
        simp only
        rw [hd, hc]
      | ok u =>
        refine Or.inr (Or.inr (Or.inr ⟨s1, tr, s2, tr2, u, rfl, hd, rfl, ?_⟩))
        unfold subscribeC
        rw [he]
        simp only
        rw [hd, hc]

/-- String append acts as list append on the underlying character data. -/
theorem strData_append (s t : String) : (s ++ t).data = s.data ++ t.data := rfl

/-- Claim C4 (counterexample): two subscriptions with the same pattern and
distinct fresh ids that share their first eight characters derive the same
queue name, so distinct live subscriptions do not always get distinct queue
names. -/
theorem c4_queue_name_collision_counterexample :
    ("aaaaaaaa-0000-4000-8000-000000000000" : String)
        ≠ "aaaaaaaa-1111-4111-8111-111111111111"
    ∧ mkQueueName "user.message.new" "aaaaaaaa-0000-4000-8000-000000000000"
        = mkQueueName "user.message.new" "aaaaaaaa-1111-4111-8111-111111111111" :=
  ⟨by decide, by decide⟩

/-- Claim C4 (amended): the queue name is a deterministic function of
`(pattern, id)` — dots become a literal separator and the wildcards are
escaped — and two subscriptions are guaranteed distinct queue names only
when the first eight characters of their ids differ; ids agreeing on that
prefix may collide even when the full ids are distinct. -/
theorem c4_queue_name_unique_amended (p1 p2 id1 id2 : String)
    (h1 : (take8 id1).length = 8) (h2 : (take8 id2).length = 8)
    (hne : take8 id1 ≠ take8 id2) :
    mkQueueName p1 id1 ≠ mkQueueName p2 id2 := by
  intro heq
  apply hne
  unfold mkQueueName at heq
  have hdata : ("maia." ++ escapeTopic p1 ++ ".").data ++ (take8 id1).data
      = ("maia." ++ escapeTopic p2 ++ ".").data ++ (take8 id2).data := by
    have := congrArg String.data heq
    rw [strData_append, strData_append] at this
    exact this
  have hlen : (take8 id1).data.length = (take8 id2).data.length := by
    have e1 : (take8 id1).data.length = (take8 id1).length := rfl
    have e2 : (take8 id2).data.length = (take8 id2).length := rfl
    rw [e1, e2, h1, h2]
  have hts := (List.append_inj' hdata hlen).2
  exact String.ext hts

/-- Witness for C4: ids differing within their first eight characters give
distinct queue names. -/
theorem c4_queue_name_unique_witness :
    mkQueueName "user.message.new" "11111111-aaaa-4aaa-8aaa-aaaaaaaaaaaa"
      ≠ mkQueueName "user.message.new" "22222222-aaaa-4aaa-8aaa-aaaaaaaaaaaa" :=
  c4_queue_name_unique_amended "user.message.new" "user.message.new"
    "11111111-aaaa-4aaa-8aaa-aaaaaaaaaaaa" "22222222-aaaa-4aaa-8aaa-aaaaaaaaaaaa"
    (by decide) (by decide) (by decide)

/-- The call `_start_consuming` is a no-op while the consumer thread is alive. -/
theorem startConsuming_alive {c : CState} (hc : c.threadAlive = true) :
    startConsuming c = c := by
  unfold startConsuming
  rw [hc]
  simp

/-- Field values of the post-state built on the success path of `subscribe`,
when a consume loop is already running: no new loop is spawned, the new
consumer is registered with `auto_ack`, and the registry gains the entry. -/
theorem subscribe_success_state (s2 : CState) (q i t2 : String)
    (h : s2.threadAlive = true) :
    ((let s3 : CState := { s2 with consumers := s2.consumers ++ [(q, true)] }
      let s4 := if !s3.consuming then startConsuming s3 else s3
      ({ s4 with subscribers := s4.subscribers ++ [(i, t2, q)] } : CState)).spawns
        = s2.spawns)
    ∧ ((let s3 : CState := { s2 with consumers := s2.consumers ++ [(q, true)] }
        let s4 := if !s3.consuming then startConsuming s3 else s3
        ({ s4 with subscribers := s4.subscribers ++ [(i, t2, q)] } : CState)).threadAlive
          = true)
    ∧ ((let s3 : CState := { s2 with consumers := s2.consumers ++ [(q, true)] }
        let s4 := if !s3.consuming then startConsuming s3 else s3
        ({ s4 with subscribers := s4.subscribers ++ [(i, t2, q)] } : CState)).consumers
          = s2.consumers ++ [(q, true)])
    ∧ ((let s3 : CState := { s2 with consumers := s2.consumers ++ [(q, true)] }
        let s4 := if !s3.consuming then startConsuming s3 else s3
        ({ s4 with subscribers := s4.subscribers ++ [(i, t2, q)] } : CState)).subscribers
          = s2.subscribers ++ [(i, t2, q)]) := by
  cases hc2 : s2.consuming <;> simp [startConsuming, h, hc2]

/-- Claim C5: a `subscribe` call made while a consume loop is already running
(the consumer thread is alive) does not start a second loop: the spawn count
is unchanged on every path through `subscribe`, and the running loop stays. -/
theorem c5_consume_loop_idempotent (o : SubOracle) (s : CState) (topic sid : String)
    (h : s.threadAlive = true) :
    (subscribeC o s topic sid).2.1.spawns = s.spawns
    ∧ (subscribeC o s topic sid).2.1.threadAlive = true := by
  rcases subscribeC_cases o s topic sid with
    ⟨s1, tr, he, hs⟩ | ⟨s1, tr, s2, tr2, he, hd, hs⟩ |
    ⟨s1, tr, s2, tr2, e2, he, hd, hc, hs⟩ | ⟨s1, tr, s2, tr2, u, he, hd, hc, hs⟩
  · have hf := cEnsureT_fields o.ensure1 s
    rw [he] at hf
    rw [hs]
    exact ⟨hf.2.2.2.1, by rw [hf.2.2.1, h]⟩
  · have hf1 := cEnsureT_fields o.ensure1 s
    rw [he] at hf1
    have hf2 := declareQueue_fields o.ensure2 o.declareRes o.bindRes s1 (mkQueueName topic sid) topic
    rw [hd] at hf2
    rw [hs]
    exact ⟨by rw [hf2.2.2.1, hf1.2.2.2.1], by rw [hf2.2.1, hf1.2.2.1, h]⟩
  · have hf1 := cEnsureT_fields o.ensure1 s
    rw [he] at hf1
    have hf2 := declareQueue_fields o.ensure2 o.declareRes o.bindRes s1 (mkQueueName topic sid) topic
    rw [hd] at hf2
    rw [hs]
    exact ⟨by rw [hf2.2.2.1, hf1.2.2.2.1], by rw [hf2.2.1, hf1.2.2.1, h]⟩
  · have hf1 := cEnsureT_fields o.ensure1 s
    rw [he] at hf1
    have hf2 := declareQueue_fields o.ensure2 o.declareRes o.bindRes s1 (mkQueueName topic sid) topic
    rw [hd] at hf2
    have hta2 : s2.threadAlive = true := by rw [hf2.2.1, hf1.2.2.1, h]
    have hss := subscribe_success_state s2 (mkQueueName topic sid) sid topic hta2
    rw [hs]
    exact ⟨by rw [hss.1, hf2.2.2.1, hf1.2.2.2.1], hss.2.1⟩

/-- Witness for C5: on a consumer whose loop already runs, a successful new
subscription leaves the spawn count at its prior value. -/
theorem c5_consume_loop_idempotent_witness :
    (subscribeC oracleUp
        { cDisconnected with threadAlive := true, spawns := 1 } "t" "12345678").2.1.spawns = 1
    ∧ (subscribeC oracleUp
        { cDisconnected with threadAlive := true, spawns := 1 } "t" "12345678").2.1.threadAlive
      = true :=
  c5_consume_loop_idempotent oracleUp
    { cDisconnected with threadAlive := true, spawns := 1 } "t" "12345678" rfl

/-- Claim C10: every failure path of `subscribe` (connection unavailable,
queue declaration failure, consumer-setup failure) raises without adding any
entry to the subscription registry, so a failed `subscribe` is invisible to
`unsubscribe` and to the consume loop. -/
theorem c10_subscribe_atomic_registry (o : SubOracle) (s : CState)
    (topic sid : String) (e : PyErr)
    (h : (subscribeC o s topic sid).1 = Except.error e) :
    (subscribeC o s topic sid).2.1.subscribers = s.subscribers := by
  rcases subscribeC_cases o s topic sid with
    ⟨s1, tr, he, hs⟩ | ⟨s1, tr, s2, tr2, he, hd, hs⟩ |
    ⟨s1, tr, s2, tr2, e2, he, hd, hc, hs⟩ | ⟨s1, tr, s2, tr2, u, he, hd, hc, hs⟩
  · have hf := cEnsureT_fields o.ensure1 s
    rw [he] at hf
    rw [hs]
    exact hf.2.2.2.2.1
  · have hf1 := cEnsureT_fields o.ensure1 s
    rw [he] at hf1
    have hf2 := declareQueue_fields o.ensure2 o.declareRes o.bindRes s1
      (mkQueueName topic sid) topic
    rw [hd] at hf2
    rw [hs]
    rw [hf2.2.2.2.1]
    exact hf1.2.2.2.2.1
  · have hf1 := cEnsureT_fields o.ensure1 s
    rw [he] at hf1
    have hf2 := declareQueue_fields o.ensure2 o.declareRes o.bindRes s1
      (mkQueueName topic sid) topic
    rw [hd] at hf2
    rw [hs]
    rw [hf2.2.2.2.1]
    exact hf1.2.2.2.2.1
  · rw [hs] at h
    cases h

/-- Witness for C10: the failed `subscribe` on a disconnected consumer adds
nothing to the registry. -/
theorem c10_subscribe_atomic_registry_witness :
    (subscribeC oracleDown cDisconnected "user.message.new" "abc123").2.1.subscribers
      = cDisconnected.subscribers :=
  c10_subscribe_atomic_registry oracleDown cDisconnected "user.message.new" "abc123"
    (PyErr.connectionError "Consumer not connected to RabbitMQ") rfl

/-- The real publisher `connect` raises `TypeError` on every path. -/
theorem pConnectR_raises (res : Except PyErr Unit) (s : PubState) :
    (pConnectR res s).1 = Except.error PyErr.typeError := by
  cases res with
  | ok _ => rfl
  | error e => cases e <;> rfl

/-- The real consumer `connect` raises `TypeError` on every path. -/
theorem cConnectR_raises (res : Except PyErr Unit) (s : CState) :
    (cConnectR res s).1 = Except.error PyErr.typeError := by
  cases res with
  | ok _ => rfl
  | error e => cases e <;> rfl

/-- The real publisher `_ensure_connection` returns a boolean only on its
two logging-free paths (stopping, already open) and otherwise raises
`TypeError`. -/
theorem pEnsureR_results (res : Except PyErr Unit) (ps : PubState) :
    (pEnsureR res ps).1 = Except.ok true ∨ (pEnsureR res ps).1 = Except.ok false
      ∨ (pEnsureR res ps).1 = Except.error PyErr.typeError := by
  unfold pEnsureR
  split
  · exact Or.inr (Or.inl rfl)
  · split
    · exact Or.inl rfl
    · cases res with
      | ok _ => exact Or.inr (Or.inr rfl)
      | error e => cases e <;> exact Or.inr (Or.inr rfl)

/-- The real consumer `_ensure_connection` returns a boolean only on its
two logging-free paths and otherwise raises `TypeError`. -/
theorem cEnsureR_results (res : Except PyErr Unit) (cs : CState) :
    (cEnsureR res cs).1 = Except.ok true ∨ (cEnsureR res cs).1 = Except.ok false
      ∨ (cEnsureR res cs).1 = Except.error PyErr.typeError := by
  unfold cEnsureR
  split
  · exact Or.inr (Or.inl rfl)
  · split
    · exact Or.inl rfl
    · cases res with
      | ok _ => exact Or.inr (Or.inr rfl)
      | error e => cases e <;> exact Or.inr (Or.inr rfl)

/-- The real `_declare_queue` raises `TypeError` on every path (the
`logger.info` between declare and bind makes the success return dead code). -/
theorem declareQueueR_raises (res : Except PyErr Unit) (declareRes : Except PyErr String)
    (bindRes : Except PyErr Unit) (s : CState) (q t : String) :
    (declareQueueR res declareRes bindRes s q t).1 = Except.error PyErr.typeError := by
  unfold declareQueueR
  rcases hE : cEnsureR res s with ⟨r1, s1, tr1⟩
  have htri := cEnsureR_results res s
  rw [hE] at htri
  simp only at htri
  rcases htri with h | h | h <;> subst h
  · cases declareRes <;> rfl
  · rfl
  · rfl

/-- The real `publish` either succeeds outright or raises `TypeError`: it
can never return `False`. -/
theorem publishR_results (res pubRes : Except PyErr Unit) (ps : PubState) (t : String) :
    (publishR res pubRes ps t).1 = Except.ok true
    ∨ (publishR res pubRes ps t).1 = Except.error PyErr.typeError := by
  unfold publishR
  rcases hE : pEnsureR res ps with ⟨r1, s1, tr1⟩
  have htri := pEnsureR_results res ps
  rw [hE] at htri
  simp only at htri
  rcases htri with h | h | h <;> subst h
  · cases pubRes with
    | ok _ => exact Or.inl rfl
    | error e => exact Or.inr rfl
  · exact Or.inr rfl
  · exact Or.inr rfl

/-- The real `subscribe` raises `ConnectionError` from a stopped consumer
and `TypeError` from every other state; it never returns an id. -/
theorem subscribeR_results (o : SubOracle) (s : CState) (t i : String) :
    (subscribeR o s t i).1
        = Except.error (PyErr.connectionError "Consumer not connected to RabbitMQ")
    ∨ (subscribeR o s t i).1 = Except.error PyErr.typeError := by
  unfold subscribeR
  rcases hE : cEnsureR o.ensure1 s with ⟨r1, s1, tr1⟩
  have htri := cEnsureR_results o.ensure1 s
  rw [hE] at htri
  simp only at htri
  rcases htri with h | h | h <;> subst h
  · simp only
    rcases hd : declareQueueR o.ensure2 o.declareRes o.bindRes s1 (mkQueueName t i) t
      with ⟨rd, s2, tr2⟩
    have hdr := declareQueueR_raises o.ensure2 o.declareRes o.bindRes s1 (mkQueueName t i) t
    rw [hd] at hdr
    simp only at hdr
    subst hdr
    exact Or.inr rfl
  · exact Or.inl rfl
  · exact Or.inr rfl

/-- The real `unsubscribe` raises `TypeError` on every path, including after
a successful cancel/delete/removal. -/
theorem unsubscribeR_raises (res cancelRes delRes : Except PyErr Unit)
    (s : CState) (sid : String) :
    (unsubscribeR res cancelRes delRes s sid).1 = Except.error PyErr.typeError := by
  unfold unsubscribeR
  cases hf : findSub s.subscribers sid with
  | none => rfl
  | some tq =>
    obtain ⟨t2, q2⟩ := tq
    rcases hE : cEnsureR res s with ⟨r1, s1, tr1⟩
    have htri := cEnsureR_results res s
    rw [hE] at htri
    simp only at htri
    rcases htri with h | h | h <;> subst h
    · simp only
      cases cancelRes with
      | error _ => rfl
      | ok _ =>
        cases delRes with
        | error _ => rfl
        | ok _ => rfl
    · rfl
    · rfl

/-- A consume-loop iteration whose `start_consuming` raised an exception
kills the thread: the except arm dies on its own logging call. -/
theorem consumerThreadStep_dies (res : Except PyErr Unit) (runErr : PyErr) (s : CState) :
    (consumerThreadStep res (Except.error runErr) s).1.threadAlive = false := by
  unfold consumerThreadStep
  split
  · rfl
  · rcases hE : cEnsureR res s with ⟨r1, s1, tr1⟩
    have htri := cEnsureR_results res s
    rw [hE] at htri
    simp only at htri
    rcases htri with h | h | h <;> subst h <;> rfl

/-- Claim C3 (counterexample): at an open publisher whose channel-level
publish fails, the real `publish` does not return a boolean failure result —
the except arm dies on its own logging call and `TypeError` propagates to
the caller; even a fully successful `connect` raises `TypeError` instead of
returning `True`. -/
theorem c3_publish_raises_counterexample :
    (publishR (Except.ok ()) (Except.error PyErr.amqpChannelError) pubStateOpen
        "user.message.processed").1 = Except.error PyErr.typeError
    ∧ (pConnectR (Except.ok ())
        { connection := Option.none, channel := Option.none, stopping := false }).1
      = Except.error PyErr.typeError :=
  ⟨rfl, rfl⟩

/-- Claim C3 (amended): the transport-layer AMQP exceptions are indeed all
caught inside the four operations, but the boolean-result contract fails:
every logging call in the broker passes a sender argument to the
one-parameter `Logger`, so `connect` always raises `TypeError` (even when
the broker connection succeeds), `publish` returns only `True` on its
fully-happy path and raises `TypeError` on every failure path, `unsubscribe`
raises `TypeError` on every path, and `subscribe` raises `ConnectionError`
(stopped consumer) or `TypeError`; what escapes the four operations is
`TypeError`/`ConnectionError`, never a raw AMQP exception. -/
theorem c3_brokerops_raise_amended (res pubRes cancelRes delRes : Except PyErr Unit)
    (ps : PubState) (cs cs2 cs3 : CState) (o : SubOracle)
    (topic sid topic2 sid2 : String) :
    (pConnectR res ps).1 = Except.error PyErr.typeError
    ∧ (cConnectR res cs).1 = Except.error PyErr.typeError
    ∧ ((publishR res pubRes ps topic).1 = Except.ok true
        ∨ (publishR res pubRes ps topic).1 = Except.error PyErr.typeError)
    ∧ (unsubscribeR res cancelRes delRes cs2 sid).1 = Except.error PyErr.typeError
    ∧ ((subscribeR o cs3 topic2 sid2).1
          = Except.error (PyErr.connectionError "Consumer not connected to RabbitMQ")
        ∨ (subscribeR o cs3 topic2 sid2).1 = Except.error PyErr.typeError) :=
  ⟨pConnectR_raises res ps, cConnectR_raises res cs, publishR_results res pubRes ps topic,
   unsubscribeR_raises res cancelRes delRes cs2 sid, subscribeR_results o cs3 topic2 sid2⟩

/-- Claim C6 (code bug): a delivery whose wire body fails to decode is
auto-acknowledged and the user callback is not invoked — but, contrary to
the claim, the decode failure is not logged (the except arm dies on its own
two-argument `logger.error`) and the escaping `TypeError` kills the consume
thread instead of letting the loop continue; the already-acked message is
lost either way. -/
theorem c6_decode_failure_crashes_loop :
    processDeliveryR true (fun _ => Option.none) (fun _ => Except.ok ()) "not json"
      = { ackedBeforeCallback := true, callbackInvoked := false,
          decodeErrorLogged := false, callbackErrorLogged := false,
          raised := Option.some PyErr.typeError }
    ∧ (consumerThreadStep (Except.ok ()) (Except.error PyErr.typeError) cOpenAlive).1.threadAlive
      = false
    ∧ (consumerThreadStep (Except.ok ()) (Except.error PyErr.typeError) cOpenAlive).2
      = Option.some PyErr.typeError :=
  ⟨rfl, rfl, rfl⟩

/-- Claim C7 (code bug): the real `unsubscribe` never returns a boolean —
an unknown id raises `TypeError` from the line-437 logging call instead of
returning `False`, and on the success path the registry entry is removed and
the cancel/delete were issued, but the line-459 logging call raises and the
caller sees `TypeError` instead of `True`. -/
theorem c7_unsubscribe_raises_typeerror :
    (unsubscribeR (Except.ok ()) (Except.ok ()) (Except.ok ()) cDisconnected "unknown-id").1
      = Except.error PyErr.typeError
    ∧ (unsubscribeR (Except.ok ()) (Except.ok ()) (Except.ok ()) cOneSub "abc123").1
      = Except.error PyErr.typeError
    ∧ (unsubscribeR (Except.ok ()) (Except.ok ()) (Except.ok ()) cOneSub "abc123").2.1.subscribers
      = []
    ∧ (unsubscribeR (Except.ok ()) (Except.ok ()) (Except.ok ()) cOneSub "abc123").2.2
      = [Act.basicCancel "maia.user_message_new.abc123",
         Act.queueDelete "maia.user_message_new.abc123"] :=
  ⟨rfl, rfl, rfl, rfl⟩

/-- Claim C8 (counterexample): when the classifier response fails to decode,
the delivery publishes nothing at all — in particular no entry on
`dispatcher.log.error` — and nothing is logged either: the wrapper record
shows no log written and a `TypeError` escaping toward the consume loop. -/
theorem c8_no_publish_counterexample :
    (dispatcherDeliveryR decodeUserMsg classifyGarbage "raw").1 = []
    ∧ (dispatcherDeliveryR decodeUserMsg classifyGarbage "raw").2.raised
      = Option.some PyErr.typeError
    ∧ (dispatcherDeliveryR decodeUserMsg classifyGarbage "raw").2.callbackErrorLogged = false :=
  ⟨rfl, rfl, rfl⟩

/-- Claim C8 (amended): a classification-decode failure raises out of the
dispatcher per-message callback (which has no catch of its own) into the
broker wrapper, whose `except` arm dies on its own two-argument logging
call: no publish is made to any topic (neither `agent.*.request` nor
`dispatcher.log.error`), nothing is logged anywhere, the escaping
`TypeError` kills the consume thread, and the auto-acknowledged message is
dropped with no retry. -/
theorem c8_classifier_decode_crash_amended (decode : String → Option PyVal)
    (classify : PyVal → Except PyErr PyVal) (raw : String)
    (bkvs : List (String × PyVal)) (e : PyErr) (res : Except PyErr Unit) (s : CState)
    (hdec : decode raw = Option.some (PyVal.dict bkvs))
    (hcl : classify ((lookupKV bkvs "text").getD (PyVal.str "no message found"))
             = Except.error e) :
    (dispatcherDeliveryR decode classify raw).1 = []
    ∧ (dispatcherDeliveryR decode classify raw).2.raised = Option.some PyErr.typeError
    ∧ (dispatcherDeliveryR decode classify raw).2.decodeErrorLogged = false
    ∧ (dispatcherDeliveryR decode classify raw).2.callbackErrorLogged = false
    ∧ (dispatcherDeliveryR decode classify raw).2.ackedBeforeCallback = true
    ∧ (consumerThreadStep res (Except.error PyErr.typeError) s).1.threadAlive = false := by
  refine ⟨?_, ?_, ?_, ?_, ?_, consumerThreadStep_dies res PyErr.typeError s⟩ <;>
    simp [dispatcherDeliveryR, processDeliveryR, hdec, userMessageCallback, pyDictGet,
      hcl, loggerTwoArg]

/-- Witness for C8 at the spec scenario payload with a non-decodable
classifier response, on a live consumer thread. -/
theorem c8_classifier_decode_crash_witness :
    (dispatcherDeliveryR decodeUserMsg classifyGarbage "raw2").1 = []
    ∧ (dispatcherDeliveryR decodeUserMsg classifyGarbage "raw2").2.raised
      = Option.some PyErr.typeError
    ∧ (dispatcherDeliveryR decodeUserMsg classifyGarbage "raw2").2.decodeErrorLogged = false
    ∧ (dispatcherDeliveryR decodeUserMsg classifyGarbage "raw2").2.callbackErrorLogged = false
    ∧ (dispatcherDeliveryR decodeUserMsg classifyGarbage "raw2").2.ackedBeforeCallback = true
    ∧ (consumerThreadStep (Except.ok ()) (Except.error PyErr.typeError)
        cOpenAlive).1.threadAlive = false :=
  c8_classifier_decode_crash_amended decodeUserMsg classifyGarbage "raw2"
    [("chat_id", PyVal.int 441992716), ("text", PyVal.str "Schedule a meeting tomorrow")]
    PyErr.jsonDecodeError (Except.ok ()) cOpenAlive rfl rfl

/-- Claim C9 (counterexample): in a half-open state the real consumer
`_ensure_connection` neither tears anything down nor returns the connect
result — it issues only a connect and raises `TypeError` from its own
logging call; and with the stopping flag set the publisher ensure returns
false even though connection and channel are both open. -/
theorem c9_ensure_typeerror_counterexample :
    (cEnsureR (Except.ok ()) cHalfOpen).1 = Except.error PyErr.typeError
    ∧ (cEnsureR (Except.ok ()) cHalfOpen).2.2 = [Act.connect]
    ∧ Act.disconnect ∉ (cEnsureR (Except.ok ()) cHalfOpen).2.2
    ∧ (pEnsureR (Except.ok ()) pubStateStopped).1 = Except.ok false :=
  ⟨rfl, rfl, by decide, rfl⟩

/-- Claim C9 (amended): with the stopping flag clear, both ensure calls
return true immediately (no broker action) when connection and channel are
open; with the stopping flag set they return false immediately even if both
are open; on every other (reconnect) path they raise `TypeError` from their
own logging call instead of returning the connect result — the publisher
first invokes its teardown, which sets the stopping flag and dies on a
logging call before closing anything, the consumer side never invokes a
teardown at all. -/
theorem c9_ensure_real_amended (res : Except PyErr Unit) (ps : PubState) (cs : CState) :
    (ps.stopping = false → isOpen ps.connection = true → isOpen ps.channel = true →
      pEnsureR res ps = (Except.ok true, ps, []))
    ∧ (ps.stopping = true → pEnsureR res ps = (Except.ok false, ps, []))
    ∧ (ps.stopping = false → (isOpen ps.connection && isOpen ps.channel) = false →
        (pEnsureR res ps).1 = Except.error PyErr.typeError
        ∧ (pEnsureR res ps).2.1.stopping = true
        ∧ (pEnsureR res ps).2.2 = [Act.disconnect, Act.connect])
    ∧ (cs.stopping = false → isOpen cs.connection = true → isOpen cs.channel = true →
      cEnsureR res cs = (Except.ok true, cs, []))
    ∧ (cs.stopping = true → cEnsureR res cs = (Except.ok false, cs, []))
    ∧ (cs.stopping = false → (isOpen cs.connection && isOpen cs.channel) = false →
        (cEnsureR res cs).1 = Except.error PyErr.typeError
        ∧ (cEnsureR res cs).2.2 = [Act.connect]
        ∧ Act.disconnect ∉ (cEnsureR res cs).2.2) := by
  refine ⟨?_, ?_, ?_, ?_, ?_, ?_⟩
  · intro h1 h2 h3
    unfold pEnsureR
    rw [h1, h2, h3]
    rfl
  · intro h1
    unfold pEnsureR
    rw [h1]
    rfl
  · intro h1 h2
    unfold pEnsureR
    rw [h1, h2]
    cases res with
    | ok _ => exact ⟨rfl, rfl, rfl⟩
    | error e => cases e <;> exact ⟨rfl, rfl, rfl⟩
  · intro h1 h2 h3
    unfold cEnsureR
    rw [h1, h2, h3]
    rfl
  · intro h1
    unfold cEnsureR
    rw [h1]
    rfl
  · intro h1 h2
    unfold cEnsureR
    rw [h1, h2]
    cases res with
    | ok _ => exact ⟨rfl, rfl, by simp [cConnectR, loggerTwoArg]⟩
    | error e => cases e <;> exact ⟨rfl, rfl, by simp [cConnectR, loggerTwoArg]⟩

/-- Witness for C9: with both slots open and not stopping, the publisher
ensure call is an immediate true with no broker action. -/
theorem c9_ensure_real_witness :
    pEnsureR (Except.ok ()) pubStateOpen = (Except.ok true, pubStateOpen, []) :=
  (c9_ensure_real_amended (Except.ok ()) pubStateOpen cDisconnected).1 rfl rfl rfl
